import Mathlib

/-!
Shallow embedding of the Ticket Raiser frontend session/auth layer.

The browser's localStorage is modelled as a record of the three keys the
application uses (accessToken, accessTokenExpiry, user), each an optional
string (absent key = none).  Remote HTTP calls are modelled by passing the
call's outcome (`Except String α`: `.error msg` models a thrown error) as an
explicit argument; the functions then perform exactly the local-state
transitions the source performs.  JS `Number#toString` / `parseInt` are
modelled over the integers via `Nat.digits`.
-/

namespace TicketRaiser

/-! ### core/config.ts -/

def ACCESS_TOKEN_KEY : String := "accessToken"

def ACCESS_TOKEN_EXPIRY_KEY : String := "accessTokenExpiry"

def USER_KEY : String := "user"

/-- Refresh 60 seconds before expiry. -/
def ACCESS_TOKEN_BUFFER : Int := 60

/-! ### The browser's localStorage, restricted to the three keys used. -/

structure Storage where
  accessToken : Option String
  accessTokenExpiry : Option String
  user : Option String
  deriving DecidableEq, Repr

/-- All three durable keys are absent. -/
def allCleared (s : Storage) : Prop :=
  s.accessToken = none ∧ s.accessTokenExpiry = none ∧ s.user = none

instance (s : Storage) : Decidable (allCleared s) := by
  unfold allCleared; infer_instance

/-! ### JS number/string conversions (`expiresAt.toString()`, `parseInt(expiry, 10)`) -/

/-- The character for decimal digit `d`. -/
def digitChar (d : Nat) : Char := Char.ofNat (48 + d)

/-- The decimal value of a digit character. -/
def digitVal (c : Char) : Nat := c.toNat - 48

/-- JS `Number#toString()` for a nonnegative integral number. -/
def natToStringJS (n : Nat) : String :=
  if n = 0 then "0" else String.mk (((Nat.digits 10 n).map digitChar).reverse)

/-- JS `Number#toString()` for an integral number. -/
def intToStringJS (i : Int) : String :=
  if i < 0 then "-" ++ natToStringJS i.natAbs else natToStringJS i.toNat

/-- The value of the longest digit prefix, as used by `parseInt`;
`none` models a NaN result (no digits at all). -/
def parseDigits (cs : List Char) : Option Nat :=
  let ds := cs.takeWhile Char.isDigit
  if ds = [] then none
  else some (ds.foldl (fun acc c => 10 * acc + digitVal c) 0)

/-- Sign handling of `parseInt` after whitespace trimming. -/
def parseSigned (cs : List Char) : Option Int :=
  match cs with
  | [] => none
  | c :: rest =>
    if c = '-' then (parseDigits rest).map fun n => -(n : Int)
    else if c = '+' then (parseDigits rest).map fun n => (n : Int)
    else (parseDigits (c :: rest)).map fun n => (n : Int)

/-- JS `parseInt(s, 10)`.  A NaN result is modelled as `none`; every use
site in the source treats NaN and null alike (both are falsy). -/
def parseIntJS (s : String) : Option Int :=
  parseSigned (s.data.dropWhile Char.isWhitespace)

/-! ### schemas/auth (shapes used by the service) -/

inductive Role where
  | USER
  | PROBLEM_SETTER
  deriving DecidableEq, Repr

structure User where
  id : Nat
  username : String
  email : String
  role : Role
  created_at : String
  deriving DecidableEq, Repr

structure TokenResponse where
  access_token : String
  expires_at : Int
  deriving DecidableEq, Repr

structure MessageResponse where
  message : String
  deriving DecidableEq, Repr

def roleToString : Role → String
  | .USER => "USER"
  | .PROBLEM_SETTER => "PROBLEM_SETTER"

/-- `JSON.stringify(user)` as performed by `authService.setUser`. -/
def serializeUser (u : User) : String :=
  "\x7b\"id\":" ++ natToStringJS u.id ++
  ",\"username\":\"" ++ u.username ++
  "\",\"email\":\"" ++ u.email ++
  "\",\"role\":\"" ++ roleToString u.role ++
  "\",\"created_at\":\"" ++ u.created_at ++ "\"\x7d"

namespace authService

/-- `authService.setTokens`: store token and expiry (expiry via `toString()`). -/
def setTokens (accessToken : String) (expiresAt : Int) (s : Storage) : Storage :=
  { s with accessToken := some accessToken,
           accessTokenExpiry := some (intToStringJS expiresAt) }

/-- `authService.getAccessToken`: `localStorage.getItem(ACCESS_TOKEN_KEY)`. -/
def getAccessToken (s : Storage) : Option String := s.accessToken

/-- `authService.getAccessTokenExpiry`: read the raw string, return null for
a missing key or an empty string (JS falsy check), else `parseInt(expiry, 10)`
(NaN modelled as `none`, which every caller treats the same as null). -/
def getAccessTokenExpiry (s : Storage) : Option Int :=
  match s.accessTokenExpiry with
  | none => none
  | some str => if str = "" then none else parseIntJS str

/-- `authService.setUser`: store the serialized user. -/
def setUser (u : User) (s : Storage) : Storage :=
  { s with user := some (serializeUser u) }

/-- `authService.clearTokens`: remove all three keys. -/
def clearTokens (_s : Storage) : Storage :=
  { accessToken := none, accessTokenExpiry := none, user := none }

/-- `authService.isAuthenticated`: `!!this.getAccessToken()` — JS double
negation, false exactly for null and the empty string. -/
def isAuthenticated (s : Storage) : Bool :=
  match getAccessToken s with
  | none => false
  | some t => !(t == "")

/-- `authService.login`: on success store the response's token and expiry;
on failure the error propagates and storage is untouched. -/
def login (remote : Except String TokenResponse) (s : Storage) :
    Except String TokenResponse × Storage :=
  match remote with
  | .error e => (.error e, s)
  | .ok r => (.ok r, setTokens r.access_token r.expires_at s)

/-- `authService.refresh`: same local transition as `login`. -/
def refresh (remote : Except String TokenResponse) (s : Storage) :
    Except String TokenResponse × Storage :=
  match remote with
  | .error e => (.error e, s)
  | .ok r => (.ok r, setTokens r.access_token r.expires_at s)

/-- `authService.logout`: try the remote call; clear tokens on success, and
in the catch branch clear tokens and re-throw the error. -/
def logout (remote : Except String MessageResponse) (s : Storage) :
    Except String MessageResponse × Storage :=
  match remote with
  | .ok r => (.ok r, clearTokens s)
  | .error e => (.error e, clearTokens s)

/-- `authService.logoutAll`: identical local behaviour to `logout`. -/
def logoutAll (remote : Except String MessageResponse) (s : Storage) :
    Except String MessageResponse × Storage :=
  match remote with
  | .ok r => (.ok r, clearTokens s)
  | .error e => (.error e, clearTokens s)

end authService

/-! ### hooks/useTokenRefresh.ts -/

/-- JS falsiness of a nullable string (null and the empty string). -/
def strFalsy : Option String → Bool
  | none => true
  | some t => t == ""

/-- JS falsiness of a nullable number (null, NaN — modelled as none — and 0). -/
def numFalsy : Option Int → Bool
  | none => true
  | some e => e == 0

/-- `isTokenExpiringSoon` from `useTokenRefresh`: true when token or expiry
is falsy, else `expiry - now < ACCESS_TOKEN_BUFFER`.  The source's try/catch
is dead in this model (nothing in the body throws), matching JS where the
arithmetic cannot throw either. -/
def isTokenExpiringSoon (s : Storage) (now : Int) : Bool :=
  let token := authService.getAccessToken s
  let expiryTime := authService.getAccessTokenExpiry s
  if strFalsy token || numFalsy expiryTime then true
  else
    match expiryTime with
    | some e => decide (e - now < ACCESS_TOKEN_BUFFER)
    | none => true

/-- `refreshToken` from `useTokenRefresh`: await the service refresh and
return true; on a thrown error clear tokens and return false. -/
def refreshToken (remote : Except String TokenResponse) (s : Storage) :
    Bool × Storage :=
  match authService.refresh remote s with
  | (.ok _, s1) => (true, s1)
  | (.error _, s1) => (false, authService.clearTokens s1)

/-! ### contexts/AuthContext.tsx -/

/-- The provider's React state plus the durable storage it manipulates. -/
structure CtxState where
  storage : Storage
  user : Option User
  error : Option String
  isLoading : Bool
  deriving DecidableEq, Repr

namespace AuthContext

/-- `initAuth` run once on mount: if a token is present, fetch the current
user (outcome passed in) and cache it; on a thrown error clear tokens and
reset the user; always end with `isLoading = false`. -/
def initAuth (fetchUser : Except String User) (st : CtxState) : CtxState :=
  if authService.isAuthenticated st.storage then
    match fetchUser with
    | .ok u =>
        { st with user := some u, storage := authService.setUser u st.storage,
                  isLoading := false }
    | .error _ =>
        { st with storage := authService.clearTokens st.storage, user := none,
                  isLoading := false }
  else { st with isLoading := false }

/-- The context-level `register`: set loading, clear the error, then run
register → login → fetch current user with the three remote outcomes passed
in; any failure sets the error message and re-throws; finally clear loading.
The catch branch performs no storage rollback. -/
def register (r1 : Except String MessageResponse) (r2 : Except String TokenResponse)
    (r3 : Except String User) (st : CtxState) : Except String Unit × CtxState :=
  let st0 := { st with isLoading := true, error := none }
  match r1 with
  | .error e => (.error e, { st0 with error := some e, isLoading := false })
  | .ok _ =>
    match authService.login r2 st0.storage with
    | (.error e, s1) =>
        (.error e, { st0 with storage := s1, error := some e, isLoading := false })
    | (.ok _, s1) =>
      match r3 with
      | .error e =>
          (.error e, { st0 with storage := s1, error := some e, isLoading := false })
      | .ok u =>
          (.ok (),
           { st0 with
             storage := authService.setUser u s1
             user := some u
             isLoading := false })

end AuthContext

/-! ### features/MySubmissions/MySubmissions.tsx -/

inductive SubmissionStatus where
  | PENDING
  | ACCEPTED
  | WRONG_ANSWER
  | RUNTIME_ERROR
  | TIME_LIMIT_EXCEEDED
  deriving DecidableEq, Repr

structure Problem where
  id : Nat
  title : String
  difficulty : String
  deriving DecidableEq, Repr

structure Submission where
  id : Nat
  problem_id : Nat
  problem : Option Problem
  code : String
  language : String
  status : SubmissionStatus
  test_cases_passed : Nat
  total_test_cases : Nat
  created_at : String
  deriving DecidableEq, Repr

def itemsPerPage : Nat := 10

/-- What the submissions page renders that the claims talk about: the empty
state, and the disabled flags of the two pagination buttons (`none` when the
button is not rendered at all). -/
structure SubmissionsView where
  emptyState : Bool
  prevDisabled : Option Bool
  nextDisabled : Option Bool
  deriving DecidableEq, Repr

/-- `MySubmissionsPage` render: `submissions.length === 0` shows the empty
state (no table, no pagination); otherwise the table plus pagination with
`Previous` disabled iff `currentPage === 1` and `Next` disabled iff
`submissions.length < itemsPerPage`. -/
def renderMySubmissions (submissions : List Submission) (currentPage : Nat) :
    SubmissionsView :=
  if submissions.length = 0 then
    { emptyState := true, prevDisabled := none, nextDisabled := none }
  else
    { emptyState := false,
      prevDisabled := some (decide (currentPage = 1)),
      nextDisabled := some (decide (submissions.length < itemsPerPage)) }

/-! ### Dashboard (src/unnamed/part_002) -/

inductive AdminSection where
  | problems
  | issues
  deriving DecidableEq, Repr

/-- The rendered dashboard: either the customer `ProblemsListPage`, or the
admin layout with its sidebar and whichever section panel is active. -/
inductive DashView where
  | customer
  | admin (showSidebar showProblems showIssues : Bool)
  deriving DecidableEq, Repr

/-- The guard `user?.role === 'USER'` (optional chaining: null yields false). -/
def userIsCustomer (user : Option User) : Bool :=
  match user with
  | some u => decide (u.role = Role.USER)
  | none => false

/-- `Dashboard` render: customer view when `user?.role === 'USER'`, else the
admin wrapper with `AdminSidebar` and, by `activeSection`, `AdminProblems`
or `AdminIssues`. -/
def renderDashboard (user : Option User) (activeSection : AdminSection) : DashView :=
  if userIsCustomer user then DashView.customer
  else
    DashView.admin true (decide (activeSection = AdminSection.problems))
      (decide (activeSection = AdminSection.issues))

/-! ### Decimal round-trip lemmas: `parseInt(n.toString(), 10) = n` -/

theorem digitVal_digitChar {d : Nat} (h : d < 10) : digitVal (digitChar d) = d := by
  interval_cases d <;> decide

theorem isDigit_digitChar {d : Nat} (h : d < 10) : (digitChar d).isDigit = true := by
  interval_cases d <;> decide

theorem not_ws_digitChar {d : Nat} (h : d < 10) : (digitChar d).isWhitespace = false := by
  interval_cases d <;> decide

theorem digitChar_ne_minus {d : Nat} (h : d < 10) : digitChar d ≠ '-' := by
  interval_cases d <;> decide

theorem digitChar_ne_plus {d : Nat} (h : d < 10) : digitChar d ≠ '+' := by
  interval_cases d <;> decide

theorem natToStringJS_chars (n : Nat) :
    ∀ c ∈ (natToStringJS n).data, ∃ d, d < 10 ∧ c = digitChar d := by
  intro c hc
  unfold natToStringJS at hc
  by_cases h0 : n = 0
  · rw [if_pos h0] at hc
    rw [show ("0" : String).data = ['0'] from rfl] at hc
    simp only [List.mem_singleton] at hc
    exact ⟨0, by norm_num, by rw [hc]; decide⟩
  · rw [if_neg h0] at hc
    simp only [String.data] at hc
    rw [List.mem_reverse, List.mem_map] at hc
    obtain ⟨d, hd, rfl⟩ := hc
    exact ⟨d, Nat.digits_lt_base (by norm_num) hd, rfl⟩

theorem natToStringJS_data_ne_nil (n : Nat) : (natToStringJS n).data ≠ [] := by
  unfold natToStringJS
  by_cases h0 : n = 0
  · rw [if_pos h0]; decide
  · rw [if_neg h0]
    simp only [String.data, ne_eq, List.reverse_eq_nil_iff, List.map_eq_nil_iff]
    exact Nat.digits_ne_nil_iff_ne_zero.mpr h0

theorem foldl_base10_reverse (L : List Nat) (a : Nat) :
    L.reverse.foldl (fun acc d => 10 * acc + d) a
      = a * 10 ^ L.length + Nat.ofDigits 10 L := by
  induction L generalizing a with
  | nil => simp [Nat.ofDigits_nil]
  | cons d T ih =>
    simp only [List.reverse_cons, List.foldl_append, List.foldl_cons, List.foldl_nil,
      List.length_cons, Nat.ofDigits_cons, ih]
    ring

theorem parseDigits_natToStringJS (n : Nat) :
    parseDigits (natToStringJS n).data = some n := by
  by_cases h0 : n = 0
  · rw [h0]; decide
  · have hchars := natToStringJS_chars n
    unfold parseDigits
    have hdig : ∀ c ∈ (natToStringJS n).data, Char.isDigit c = true := by
      intro c hc
      obtain ⟨d, hd10, rfl⟩ := hchars c hc
      exact isDigit_digitChar hd10
    rw [List.takeWhile_eq_self_iff.mpr hdig, if_neg (natToStringJS_data_ne_nil n)]
    congr 1
    unfold natToStringJS
    rw [if_neg h0]
    simp only [String.data]
    rw [← List.map_reverse, List.foldl_map]
    rw [List.foldl_ext (g := fun acc d => 10 * acc + d)]
    · rw [foldl_base10_reverse]
      simp [Nat.ofDigits_digits]
    · intro a d hd
      rw [digitVal_digitChar (Nat.digits_lt_base (by norm_num) (List.mem_reverse.mp hd))]

theorem parseIntJS_intToStringJS (i : Int) : parseIntJS (intToStringJS i) = some i := by
  unfold intToStringJS parseIntJS
  by_cases hneg : i < 0
  · rw [if_pos hneg]
    rw [show ("-" ++ natToStringJS i.natAbs).data = '-' :: (natToStringJS i.natAbs).data
        from rfl]
    rw [show List.dropWhile Char.isWhitespace ('-' :: (natToStringJS i.natAbs).data)
        = '-' :: (natToStringJS i.natAbs).data by
      rw [List.dropWhile_cons]; simp]
    simp only [parseSigned, if_pos rfl]
    rw [parseDigits_natToStringJS]
    exact congrArg some (by show -(i.natAbs : Int) = i; omega)
  · rw [if_neg hneg]
    obtain ⟨c, t, hct⟩ : ∃ c t, (natToStringJS i.toNat).data = c :: t := by
      cases h : (natToStringJS i.toNat).data with
      | nil => exact absurd h (natToStringJS_data_ne_nil _)
      | cons c t => exact ⟨c, t, rfl⟩
    obtain ⟨d, hd10, hcd⟩ := natToStringJS_chars i.toNat c (by rw [hct]; simp)
    rw [hct]
    rw [show List.dropWhile Char.isWhitespace (c :: t) = c :: t by
      rw [List.dropWhile_cons, hcd, not_ws_digitChar hd10]; simp]
    simp only [parseSigned]
    rw [if_neg (hcd ▸ digitChar_ne_minus hd10), if_neg (hcd ▸ digitChar_ne_plus hd10)]
    rw [← hct, parseDigits_natToStringJS]
    exact congrArg some (by show ((i.toNat : Nat) : Int) = i; omega)

theorem natToStringJS_ne_empty (n : Nat) : natToStringJS n ≠ "" := by
  intro h
  have : (natToStringJS n).data = [] := by rw [h]
  exact natToStringJS_data_ne_nil n this

theorem intToStringJS_ne_empty (i : Int) : intToStringJS i ≠ "" := by
  unfold intToStringJS
  by_cases hneg : i < 0
  · rw [if_pos hneg]
    intro h
    have : ("-" ++ natToStringJS i.natAbs).data = [] := by rw [h]
    rw [show ("-" ++ natToStringJS i.natAbs).data = '-' :: (natToStringJS i.natAbs).data
        from rfl] at this
    exact List.cons_ne_nil _ _ this
  · rw [if_neg hneg]
    exact natToStringJS_ne_empty _

/-! ### Claim C1: logout / logoutAll always clear the three durable keys -/

/-- C1: for every run of `logout()` or `logoutAll()`, whether the remote POST
succeeds or throws, afterwards all three durable storage keys are absent, and
the outcome (success value, or the re-thrown error) is passed through to the
caller unchanged. -/
theorem logout_always_clears (remote : Except String MessageResponse) (s : Storage) :
    (authService.logout remote s).1 = remote ∧
    allCleared (authService.logout remote s).2 ∧
    (authService.logoutAll remote s).1 = remote ∧
    allCleared (authService.logoutAll remote s).2 := by
  cases remote <;>
    simp [authService.logout, authService.logoutAll, authService.clearTokens, allCleared]

/-! ### Claim C2: isTokenExpiringSoon -/

/-- The condition claimed for C2: token absent, or expiry absent, or the
stored expiry minus now is below the 60-second buffer. -/
def expiringClaimRHS (s : Storage) (now : Int) : Prop :=
  authService.getAccessToken s = none ∨ s.accessTokenExpiry = none ∨
  (∃ e, authService.getAccessTokenExpiry s = some e ∧ e - now < ACCESS_TOKEN_BUFFER)

/-- A stored state with an empty-string token (present, not absent) and a
far-future expiry. -/
def expiringCEStorage : Storage :=
  { accessToken := some "", accessTokenExpiry := some "1000000", user := none }

/-- C2 counterexample: with an empty-string access token stored under the
token key and expiry 1000000 at `now = 0`, the code returns true (the empty
string is JS-falsy), while the claimed condition is false: neither key is
absent and `1000000 - 0 ≥ 60`.  So the claimed equivalence fails. -/
theorem isTokenExpiringSoon_claim_false :
    isTokenExpiringSoon expiringCEStorage 0 = true ∧
    ¬ expiringClaimRHS expiringCEStorage 0 := by
  constructor
  · decide
  · intro h
    rcases h with h | h | ⟨e, he, hlt⟩
    · simp [authService.getAccessToken, expiringCEStorage] at h
    · simp [expiringCEStorage] at h
    · have he' : authService.getAccessTokenExpiry expiringCEStorage = some 1000000 := by
        decide
      rw [he'] at he
      injection he with he2
      rw [← he2] at hlt
      simp only [ACCESS_TOKEN_BUFFER] at hlt
      omega

/-- C2 (amended): `isTokenExpiringSoon()` returns true iff the stored token is
JS-falsy (absent or the empty string), or the stored expiry is JS-falsy
(absent, empty, unparseable, or parses to 0), or the parsed expiry minus `now`
is below the 60-second buffer. -/
theorem isTokenExpiringSoon_iff (s : Storage) (now : Int) :
    isTokenExpiringSoon s now = true ↔
      (strFalsy (authService.getAccessToken s) = true ∨
       numFalsy (authService.getAccessTokenExpiry s) = true ∨
       ∃ e, authService.getAccessTokenExpiry s = some e ∧
         e - now < ACCESS_TOKEN_BUFFER) := by
  by_cases hT : strFalsy (authService.getAccessToken s) = true
  · simp [isTokenExpiringSoon, hT]
  · rw [Bool.not_eq_true] at hT
    rcases hx : authService.getAccessTokenExpiry s with _ | e
    · simp [isTokenExpiringSoon, hx, numFalsy, hT]
    · by_cases he0 : e = 0
      · subst he0
        simp [isTokenExpiringSoon, hx, numFalsy, hT]
      · simp [isTokenExpiringSoon, hx, numFalsy, hT, he0]

/-! ### Claim C3: context-level register on partial failure -/

/-- A fresh unauthenticated client state. -/
def registerCEStart : CtxState :=
  { storage := { accessToken := none, accessTokenExpiry := none, user := none },
    user := none, error := none, isLoading := false }

/-- C3 counterexample: starting unauthenticated, step 1 (register) and step 2
(login, which stores the token `"tok"`) succeed and step 3 (fetch current
user) throws `"401"`.  The operation re-throws and the context user is null,
but the access token stored by step 2 remains in storage — contradicting the
claim's "no stored access token". -/
theorem register_claim_false :
    (AuthContext.register (.ok ⟨"ok"⟩) (.ok ⟨"tok", 1000⟩) (.error "401")
        registerCEStart).1 = .error "401" ∧
    (AuthContext.register (.ok ⟨"ok"⟩) (.ok ⟨"tok", 1000⟩) (.error "401")
        registerCEStart).2.storage.accessToken = some "tok" ∧
    ¬((AuthContext.register (.ok ⟨"ok"⟩) (.ok ⟨"tok", 1000⟩) (.error "401")
        registerCEStart).2.storage.accessToken = none) ∧
    (AuthContext.register (.ok ⟨"ok"⟩) (.ok ⟨"tok", 1000⟩) (.error "401")
        registerCEStart).2.user = none := by
  refine ⟨rfl, rfl, ?_, rfl⟩
  decide

/-- C3 (amended): when step 2 or step 3 fails after step 1 succeeded, the
operation re-throws the error, records it in the error field, clears the
loading flag, and leaves the context user unchanged (so still null when null
before); storage is untouched when step 2 fails, but when step 3 fails after
step 2 succeeded the token and expiry stored by the login step remain — there
is no rollback. -/
theorem register_partial_failure (st : CtxState) (m : MessageResponse)
    (r3 : Except String User) (tr : TokenResponse) (e : String) :
    AuthContext.register (.ok m) (.error e) r3 st =
      (.error e, { st with error := some e, isLoading := false }) ∧
    AuthContext.register (.ok m) (.ok tr) (.error e) st =
      (.error e,
       { st with
         storage := authService.setTokens tr.access_token tr.expires_at st.storage
         error := some e
         isLoading := false }) :=
  ⟨rfl, rfl⟩

/-! ### Claim C4: isAuthenticated -/

/-- C4: `isAuthenticated()` is true iff a non-empty access token string is
stored under the access-token key, and the expiry and user keys do not affect
the result (so an expired-but-present token still reads as authenticated). -/
theorem isAuthenticated_iff (s : Storage) :
    (authService.isAuthenticated s = true ↔ ∃ t, s.accessToken = some t ∧ t ≠ "") ∧
    (∀ e u, authService.isAuthenticated
        { accessToken := s.accessToken, accessTokenExpiry := e, user := u }
      = authService.isAuthenticated s) := by
  constructor
  · unfold authService.isAuthenticated authService.getAccessToken
    cases s.accessToken with
    | none => simp
    | some t => simp
  · intro e u
    rfl

/-! ### Claim C5: login stores the server response -/

/-- C5: after a successful `login`, the stored access token equals the
response's `access_token`, and the stored expiry — written with `toString()`
and read back through `parseInt` — equals the response's `expires_at`. -/
theorem login_stores_response (r : TokenResponse) (s : Storage) :
    authService.getAccessToken (authService.login (.ok r) s).2 = some r.access_token ∧
    authService.getAccessTokenExpiry (authService.login (.ok r) s).2
      = some r.expires_at := by
  constructor
  · rfl
  · show (if intToStringJS r.expires_at = "" then none
          else parseIntJS (intToStringJS r.expires_at)) = some r.expires_at
    rw [if_neg (intToStringJS_ne_empty r.expires_at)]
    exact parseIntJS_intToStringJS r.expires_at

/-! ### Claim C6: mount with a stored token and a failing /users/me -/

/-- C6: on the initial mount with a (non-empty) token present in storage and a
backend whose `GET /users/me` throws, `initAuth` ends with a null user, all
three durable keys cleared and the loading flag false.  The embedding applies
the single fetch outcome once, mirroring the code's single, unretried call. -/
theorem initAuth_invalid_token (st : CtxState) (e : String)
    (h : authService.isAuthenticated st.storage = true) :
    (AuthContext.initAuth (.error e) st).user = none ∧
    allCleared (AuthContext.initAuth (.error e) st).storage ∧
    (AuthContext.initAuth (.error e) st).isLoading = false := by
  unfold AuthContext.initAuth
  rw [if_pos h]
  exact ⟨rfl, ⟨rfl, rfl, rfl⟩, rfl⟩

/-- A mounted state holding a stored (invalid) token. -/
def initAuthWitnessState : CtxState :=
  { storage := { accessToken := some "tok", accessTokenExpiry := some "1000", user := none },
    user := none, error := none, isLoading := true }

/-- C6 witness: the theorem applied to a concrete stored-token state and a
concrete 401 failure. -/
theorem initAuth_invalid_token_witness :
    (AuthContext.initAuth (.error "401") initAuthWitnessState).user = none ∧
    allCleared (AuthContext.initAuth (.error "401") initAuthWitnessState).storage ∧
    (AuthContext.initAuth (.error "401") initAuthWitnessState).isLoading = false :=
  initAuth_invalid_token initAuthWitnessState "401" (by decide)

/-! ### Claim C7: the hook's refreshToken -/

/-- C7: the hook's `refreshToken()` returns true when the underlying refresh
succeeds (storing the fresh token), and when the refresh throws it clears all
local session storage keys and returns false; being a total function into
`Bool × Storage` it never itself throws. -/
theorem refreshToken_spec (r : TokenResponse) (e : String) (s : Storage) :
    refreshToken (.ok r) s = (true, authService.setTokens r.access_token r.expires_at s) ∧
    refreshToken (.error e) s = (false, authService.clearTokens s) ∧
    allCleared (refreshToken (.error e) s).2 := by
  refine ⟨rfl, rfl, ?_⟩
  exact ⟨rfl, rfl, rfl⟩

/-! ### Claim C8: Next is disabled exactly when the fetched page is not full -/

/-- C8: for every fetched page that is rendered with pagination (nonempty) and
respects the request's `limit` (at most `itemsPerPage` entries), the Next
button is disabled exactly when the page has fewer than `itemsPerPage`
entries, i.e. enabled exactly when the page is full. -/
theorem nextDisabled_iff_not_full (subs : List Submission) (p : Nat)
    (hne : subs ≠ []) (hle : subs.length ≤ itemsPerPage) :
    ((renderMySubmissions subs p).nextDisabled = some true ↔
      subs.length < itemsPerPage) ∧
    ((renderMySubmissions subs p).nextDisabled = some false ↔
      subs.length = itemsPerPage) := by
  unfold renderMySubmissions
  rw [if_neg (by simpa using hne)]
  simp only [itemsPerPage] at hle ⊢
  constructor
  · simp
  · simp only [Option.some.injEq, decide_eq_false_iff_not, Nat.not_lt]
    omega

/-- A concrete submission row. -/
def sampleSubmission : Submission :=
  { id := 1, problem_id := 1, problem := none, code := "print(1)", language := "python",
    status := .PENDING, test_cases_passed := 0, total_test_cases := 1,
    created_at := "2025-01-01" }

/-- C8 witness: the theorem applied to a concrete one-element page. -/
theorem nextDisabled_iff_not_full_witness :
    ((renderMySubmissions [sampleSubmission] 1).nextDisabled = some true ↔
      [sampleSubmission].length < itemsPerPage) ∧
    ((renderMySubmissions [sampleSubmission] 1).nextDisabled = some false ↔
      [sampleSubmission].length = itemsPerPage) :=
  nextDisabled_iff_not_full [sampleSubmission] 1 (by decide) (by decide)

/-! ### Claim C9: the zero-submission render -/

/-- C9 counterexample: with zero submissions on page 1 the page renders the
empty state, but the pagination block is not rendered at all — there is no
Previous button, so in particular no disabled one; the claim's "the Previous
pagination button is disabled" is false. -/
theorem emptyPage_claim_false :
    (renderMySubmissions [] 1).emptyState = true ∧
    ¬((renderMySubmissions [] 1).prevDisabled = some true) ∧
    (renderMySubmissions [] 1).prevDisabled = none := by
  refine ⟨rfl, ?_, rfl⟩
  decide

/-- C9 (amended): for every fetch returning zero submissions, on any page
number, the page renders the empty state and renders no pagination controls
at all, so no Previous (or Next) button exists. -/
theorem renderMySubmissions_empty (p : Nat) :
    renderMySubmissions [] p =
      { emptyState := true, prevDisabled := none, nextDisabled := none } := rfl

/-! ### Claim C10: the Dashboard branch -/

/-- C10 counterexample: with `user = null` and the initial active section
`problems`, the dashboard renders the admin view showing the sidebar and
AdminProblems but NOT AdminIssues, so the claim's "renders the admin view
with AdminSidebar, AdminProblems and AdminIssues" is false as a statement
about what is rendered. -/
theorem dashboard_claim_false :
    renderDashboard none AdminSection.problems = DashView.admin true true false ∧
    renderDashboard none AdminSection.problems ≠ DashView.admin true true true := by
  exact ⟨rfl, by decide⟩

/-- C10 (amended): the customer view is rendered exactly when the user is
non-null with role USER; every other state (null user, or role
PROBLEM_SETTER) renders the admin view with the sidebar and exactly the
section panel selected by `activeSection` (AdminProblems when `problems`,
AdminIssues when `issues`), never both at once. -/
theorem renderDashboard_customer_iff (u : Option User) (sec : AdminSection) :
    (renderDashboard u sec = DashView.customer ↔
      ∃ us, u = some us ∧ us.role = Role.USER) ∧
    (renderDashboard u sec = DashView.customer ∨
      renderDashboard u sec =
        DashView.admin true (decide (sec = AdminSection.problems))
          (decide (sec = AdminSection.issues))) := by
  cases u with
  | none =>
    constructor
    · simp [renderDashboard, userIsCustomer]
    · right
      rfl
  | some us =>
    by_cases hr : us.role = Role.USER
    · constructor
      · simp [renderDashboard, userIsCustomer, hr]
      · left
        simp [renderDashboard, userIsCustomer, hr]
    · constructor
      · simp [renderDashboard, userIsCustomer, hr]
      · right
        simp [renderDashboard, userIsCustomer, hr]

end TicketRaiser
